import Mathlib

/-!
Shallow embedding of `src/interview_engine.py` (AI_Interview_Assistant).

The module wraps an optional text-generation backend behind two functions,
`generate_questions` and `get_feedback_on_answer`, plus a stateful iterator
`InterviewSession`.  The backend (`MODEL` in the source) is modelled as an
`Option Backend`, where a `Backend` maps the prompt string to either a raised
exception (`Except.error` carrying the exception text) or a response
(`Except.ok`, carrying the possibly-`None` `resp.text` as an `Option String`).

Python string primitives used by the source (`strip`, `lstrip`, `splitlines`,
slicing, `join`) are modelled on `List Char`.  `str.isdigit` accepts more
than the ASCII digits; because the source's marker-stripping `lstrip` only
removes ASCII characters, its cleaning loop does not terminate on a line
headed by a non-ASCII digit.  The cleaning loop and everything reached
through it are therefore modelled as `Option`-valued functions, `none`
standing for non-termination of the source.
-/

/-- Python whitespace for `str.strip()` (ASCII range): space, tab, newline,
carriage return, vertical tab (11), form feed (12). -/
def pyWhitespace (c : Char) : Bool :=
  c = ' ' || c = '\t' || c = '\n' || c = '\r' || c.toNat = 11 || c.toNat = 12

/-- Drop trailing characters satisfying `p` (Python `rstrip`). -/
def dropTrailing (p : Char → Bool) : List Char → List Char
  | [] => []
  | c :: rest =>
    if dropTrailing p rest = [] && p c then [] else c :: dropTrailing p rest

/-- Python `str.strip()` on a character list: drop leading and trailing
characters satisfying `p`. -/
def stripBoth (p : Char → Bool) (l : List Char) : List Char :=
  dropTrailing p (l.dropWhile p)

/-- Python `str.strip()` on a `String`. -/
def pyStrip (s : String) : String :=
  String.mk (stripBoth pyWhitespace s.data)

/-- Python `str.splitlines()` on a character list: split at `\n`, `\r\n`
and `\r`; a trailing line terminator does not produce a final empty line. -/
def pySplitlines : List Char → List (List Char)
  | [] => []
  | cs => splitGo cs []
where
  splitGo : List Char → List Char → List (List Char)
    | [], cur => if cur = [] then [] else [cur.reverse]
    | '\r' :: '\n' :: rest, cur => cur.reverse :: splitGo rest []
    | '\n' :: rest, cur => cur.reverse :: splitGo rest []
    | '\r' :: rest, cur => cur.reverse :: splitGo rest []
    | c :: rest, cur => splitGo rest (c :: cur)

/-- Python `"\n".join` on character lists. -/
def joinNL : List (List Char) → List Char
  | [] => []
  | [x] => x
  | x :: xs => x ++ '\n' :: joinNL xs

/-- The character set of the source's `lstrip("0123456789. )-*\t")`:
ASCII digits, `.`, space, `)`, `-`, `*`, tab. -/
def isMarkerChar (c : Char) : Bool :=
  c.isDigit || c = '.' || c = ' ' || c = ')' || c = '-' || c = '*' || c = '\t'

/-- A representative set of the non-ASCII characters accepted by Python's
`str.isdigit`: superscript digits (including U+00B2 '²'), subscript,
Arabic-Indic, extended Arabic-Indic, Devanagari, Bengali, circled,
parenthesized, digit-full-stop and full-width digits.  Python's full
table is larger, but every character in it behaves like these for the
source: the loop guard accepts it while `lstrip("0123456789. )-*\t")`
cannot remove it. -/
def pyNonAsciiDigit (c : Char) : Bool :=
  c.toNat = 0xB2 || c.toNat = 0xB3 || c.toNat = 0xB9 ||
  (0x660 ≤ c.toNat && c.toNat ≤ 0x669) ||
  (0x6F0 ≤ c.toNat && c.toNat ≤ 0x6F9) ||
  (0x966 ≤ c.toNat && c.toNat ≤ 0x96F) ||
  (0x9E6 ≤ c.toNat && c.toNat ≤ 0x9EF) ||
  c.toNat = 0x2070 || (0x2074 ≤ c.toNat && c.toNat ≤ 0x2079) ||
  (0x2080 ≤ c.toNat && c.toNat ≤ 0x2089) ||
  (0x2460 ≤ c.toNat && c.toNat ≤ 0x2468) ||
  (0x2474 ≤ c.toNat && c.toNat ≤ 0x247C) ||
  (0x2488 ≤ c.toNat && c.toNat ≤ 0x2490) ||
  (0xFF10 ≤ c.toNat && c.toNat ≤ 0xFF19)

/-- Python's `str.isdigit` on one character: the ASCII digits together
with the non-ASCII digit characters. -/
def pyIsDigit (c : Char) : Bool :=
  c.isDigit || pyNonAsciiDigit c

/-- The loop guard of `_clean_list_from_text`:
`ln[0].isdigit() or ln[0] in "-*"`. -/
def isMarkerStart (c : Char) : Bool :=
  pyIsDigit c || c = '-' || c = '*'

/-- The full `while` condition `ln and (ln[0].isdigit() or ln[0] in "-*")`. -/
def loopGuard : List Char → Bool
  | [] => false
  | c :: _ => isMarkerStart c

/-- One iteration of the source's `while` body:
`ln = ln.lstrip("0123456789. )-*\t"); ln = ln.strip()`. -/
def cleanStep (ln : List Char) : List Char :=
  stripBoth pyWhitespace (ln.dropWhile isMarkerChar)

/-- The `while ln and (ln[0].isdigit() or ln[0] in "-*")` loop of
`_clean_list_from_text`; `none` models non-termination of the source.
The body only deletes characters, so one iteration either strictly
shortens the line or leaves it unchanged; when it leaves the line
unchanged with the guard still true (the first character tests as a
digit but is outside the `lstrip` set, e.g. '²'), every later iteration
repeats the same state and the source loops forever — the `none` branch.
Otherwise each iteration shortens the line, so a fuel of `ln.length`
decides every run; the fuel-exhausted case (only reachable on the empty
line, whose guard is false) answers by the guard for the same reason. -/
def cleanLoop : Nat → List Char → Option (List Char)
  | 0, ln => if loopGuard ln then none else some ln
  | fuel + 1, ln =>
    if loopGuard ln then
      if cleanStep ln = ln then none
      else cleanLoop fuel (cleanStep ln)
    else some ln

/-- The `for ln in lines` loop of `_clean_list_from_text`: run the clean
loop on each line in order, appending the result when it is non-empty
(`if ln: cleaned.append(ln)`); if the clean loop on some line never
terminates, the whole call never returns (`none`). -/
def cleanLines : List (List Char) → Option (List (List Char))
  | [] => some []
  | ln :: rest =>
    match cleanLoop ln.length ln with
    | none => none
    | some out =>
      match cleanLines rest with
      | none => none
      | some outs => some (if out = [] then outs else out :: outs)

/-- `_clean_list_from_text(text)`: split into lines, strip each, drop
blanks, strip leading numbering/bullets from each line, drop lines that
became empty; `none` when the marker-stripping loop diverges on some
line. -/
def _clean_list_from_text (text : String) : Option (List String) :=
  match cleanLines (((pySplitlines text.data).map (stripBoth pyWhitespace)).filter
      (fun ln => ln ≠ [])) with
  | none => none
  | some cleaned => some (cleaned.map String.mk)

/-- `FALLBACK_QUESTIONS` from the source. -/
def FALLBACK_QUESTIONS : List String := [
  "Why should we hire you?",
  "Tell me about yourself.",
  "What are your strengths?",
  "What are your weaknesses?",
  "Where do you see yourself in 5 years?",
  "Why do you want to work here?",
  "Tell me about a challenge you faced at work.",
  "How do you handle pressure?",
  "What motivates you?",
  "Do you have any questions for us?"]

/-- Python list slicing `lst[:n]` for an `int` bound `n`: a negative bound
counts from the end (clamped at zero). -/
def pySliceTo (n : Int) (xs : List String) : List String :=
  if 0 ≤ n then xs.take n.toNat
  else xs.take ((xs.length : Int) + n).toNat

/-- A generation backend: from the prompt, either a raised exception
(`error`, carrying the exception text) or a response whose `.text`
attribute may be `None`. -/
def Backend := String → Except String (Option String)

/-- Python `resp.text or ""`. -/
def pyOrEmpty : Option String → String
  | none => ""
  | some s => s

/-- The prompt built by `generate_questions`. -/
def gqPrompt (job_title : String) (n_questions : Int) : String :=
  "You are an expert interview coach. Generate " ++ toString n_questions ++
  " clear, concise interview questions for a candidate applying for the role: \"" ++
  job_title ++ "\". Return a numbered list, one question per line. Do not add extra commentary."

/-- `generate_questions(job_title, n_questions)` with the module-level
`MODEL` made an explicit `Option Backend` argument; `none` models the
call never returning (the parser diverging on the backend's response). -/
def generate_questions (model : Option Backend) (job_title : String)
    (n_questions : Int) : Option (List String) :=
  if job_title = "" then some ["Please provide a job title."]
  else
    match model with
    | none => some (pySliceTo n_questions FALLBACK_QUESTIONS)
    | some b =>
      match b (gqPrompt job_title n_questions) with
      | Except.error e =>
        some (("Error generating questions: " ++ e) ::
          pySliceTo (max 0 (n_questions - 1)) FALLBACK_QUESTIONS)
      | Except.ok respText =>
        match _clean_list_from_text (pyStrip (pyOrEmpty respText)) with
        | none => none
        | some questions =>
          let questions :=
            if (questions.length : Int) < n_questions then
              pySliceTo n_questions
                (questions ++ FALLBACK_QUESTIONS.filter (fun q => !(questions.contains q)))
            else questions
          some (pySliceTo n_questions questions)

/-- The five heuristic feedback lines for a short answer (< 30 chars). -/
def feedbackShort : List String := [
  "1) Score: 40/100",
  "2) Strength: You tried to answer quickly.",
  "3) Improve: Add one concrete example (what you did).",
  "4) Improve: Add the result (what changed because of your action).",
  "5) Model answer (example): I led X project where I did Y and achieved Z."]

/-- The five heuristic feedback lines for a long answer (>= 30 chars). -/
def feedbackLong : List String := [
  "1) Score: 75/100",
  "2) Strength: Clear structure and some example included.",
  "3) Improve: Be more specific about numbers or results.",
  "4) Improve: Add one short sentence about learning from the experience.",
  "5) Model answer (example): I improved X by doing Y which increased Z by 20%."]

/-- The prompt built by `get_feedback_on_answer`. -/
def fbPrompt (question answer : String) : String :=
  "\nYou are an interview coach giving feedback to a student. Use very simple, short sentences\n(so a student can easily understand). The question is:\n" ++
  question ++
  "\n\nThe candidate's answer is:\n" ++
  answer ++
  "\n\nProvide feedback as a short numbered list with these parts:\n1) A short score out of 100.\n2) Two short strengths (one sentence each).\n3) Three short, actionable improvements (one sentence each).\n4) A single short model answer (1-2 sentences).\n\nUse plain, easy words. Keep each item concise (<= 20 words). Return only the numbered list, one item per line.\n"

/-- `get_feedback_on_answer(question, answer)` with `MODEL` explicit. -/
def get_feedback_on_answer (model : Option Backend) (question answer : String) :
    String :=
  if answer = "" ∨ pyStrip answer = "" then
    "No answer provided. Please write your response before requesting feedback."
  else
    match model with
    | none =>
      let ans_len := (pyStrip answer).length
      if ans_len < 30 then String.mk (joinNL (feedbackShort.map String.data))
      else String.mk (joinNL (feedbackLong.map String.data))
    | some b =>
      match b (fbPrompt question answer) with
      | Except.error e => "Error generating feedback: " ++ e
      | Except.ok respText =>
        let text := pyStrip (pyOrEmpty respText)
        let lines := ((pySplitlines text.data).map (stripBoth pyWhitespace)).filter
          (fun ln => ln ≠ [])
        if lines = [] then "No feedback returned. Try again."
        else String.mk (joinNL lines)

/-- `InterviewSession`'s fields: `job_title`, `n_questions` (after the
`max(1, int(n_questions))` clamp), `_questions`, `_index`. -/
structure InterviewSession where
  job_title : String
  n_questions : Int
  questions : List String
  index : Nat
deriving DecidableEq, Repr

/-- `InterviewSession.__init__`; construction never returns (`none`) when
the `generate_questions` call it makes never returns. -/
def mkSession (model : Option Backend) (job_title : String) (n_questions : Int) :
    Option InterviewSession :=
  match generate_questions model job_title (max 1 n_questions) with
  | none => none
  | some qs =>
    some { job_title := job_title
           n_questions := max 1 n_questions
           questions := qs
           index := 0 }

/-- `next_question()`: returns the optional labeled question and the
updated session (the Python method mutates `self._index`). -/
def next_question (s : InterviewSession) : Option String × InterviewSession :=
  if s.index < s.questions.length then
    let s' := { s with index := s.index + 1 }
    (some ("Question " ++ toString s'.index ++ ": " ++ s.questions.getD s.index ""),
      s')
  else (none, s)

/-- `peek_current()`: the Python method reads state without mutating it. -/
def peek_current (s : InterviewSession) : Option String :=
  if s.index = 0 then none
  else some ("Question " ++ toString s.index ++ ": " ++ s.questions.getD (s.index - 1) "")

/-- `has_next()`. -/
def has_next (s : InterviewSession) : Bool :=
  s.index < s.questions.length

/-- `reset()`. -/
def reset (s : InterviewSession) : InterviewSession :=
  { s with index := 0 }

/-- `all_questions()` (returns `list(self._questions)`, a copy). -/
def all_questions (s : InterviewSession) : List String :=
  s.questions

/-- The session methods as trace steps, for reasoning about call
histories.  `next` and `reset` are the only state-changing methods. -/
inductive SessionOp where
  | next
  | reset
  | peek
  | hasNext
  | allQuestions
deriving DecidableEq, Repr

/-- State transition of one method call. -/
def applyOp (s : InterviewSession) : SessionOp → InterviewSession
  | SessionOp.next => (next_question s).2
  | SessionOp.reset => reset s
  | SessionOp.peek => s
  | SessionOp.hasNext => s
  | SessionOp.allQuestions => s

/-- Run a call history from a starting state. -/
def runOps (s : InterviewSession) (ops : List SessionOp) : InterviewSession :=
  ops.foldl applyOp s

/-- Session cursor invariant: `0 ≤ cursor ≤ len(questions)` (the lower
bound is inherent to `Nat`). -/
def SessionInv (s : InterviewSession) : Prop :=
  s.index ≤ s.questions.length

/-- The session state after `k` calls to `next_question`, starting from `s`. -/
def sessionStates (s : InterviewSession) : Nat → InterviewSession
  | 0 => s
  | k + 1 => (next_question (sessionStates s k)).2

/-- The value returned by the `(k+1)`-th call to `next_question`. -/
def sessionOut (s : InterviewSession) (k : Nat) : Option String :=
  (next_question (sessionStates s k)).1

/-- A 30-character answer (29 letters and a trailing space) whose stripped
length is 29. -/
def ans30 : String := String.mk (List.replicate 29 'a' ++ [' '])

/-- The session the source builds for title "QA", `n_questions = 2`, no
backend. -/
def qaSession : InterviewSession :=
  { job_title := "QA"
    n_questions := 2
    questions := ["Why should we hire you?", "Tell me about yourself."]
    index := 0 }

/-- The session the source builds for title "Data Scientist",
`n_questions = 3`, no backend. -/
def dsSession : InterviewSession :=
  { job_title := "Data Scientist"
    n_questions := 3
    questions := ["Why should we hire you?", "Tell me about yourself.",
      "What are your strengths?"]
    index := 0 }

/-! ## Helper lemmas -/

theorem dropTrailing_cons_shape (p : Char → Bool) (c : Char) (l : List Char) :
    dropTrailing p (c :: l) = [] ∨ ∃ r, dropTrailing p (c :: l) = c :: r := by
  simp only [dropTrailing]
  split
  · exact Or.inl rfl
  · exact Or.inr ⟨_, rfl⟩

theorem dropWhile_head_false (p : Char → Bool) (l : List Char) (c : Char)
    (r : List Char) (h : l.dropWhile p = c :: r) : p c = false := by
  induction l with
  | nil => simp [List.dropWhile] at h
  | cons a rest ih =>
    rw [List.dropWhile_cons] at h
    split at h
    · exact ih h
    · next hp =>
      cases h
      simpa using hp

theorem stripBoth_head_false (p : Char → Bool) (l : List Char) (c : Char)
    (r : List Char) (h : stripBoth p l = c :: r) : p c = false := by
  unfold stripBoth at h
  cases hdw : l.dropWhile p with
  | nil => rw [hdw] at h; simp [dropTrailing] at h
  | cons a t =>
    rw [hdw] at h
    rcases dropTrailing_cons_shape p a t with h0 | ⟨r2, h2⟩
    · rw [h0] at h; cases h
    · rw [h2] at h
      injection h with h3 h4
      subst h3
      exact dropWhile_head_false p l a t hdw

theorem cleanLoop_some_spec (fuel : Nat) :
    ∀ ln out : List Char, cleanLoop fuel ln = some out →
      (∀ c r, ln = c :: r → pyWhitespace c = false) →
      loopGuard out = false ∧
      ∀ c r, out = c :: r → pyWhitespace c = false := by
  induction fuel with
  | zero =>
    intro ln out h hws
    unfold cleanLoop at h
    split at h
    · cases h
    · next hg =>
      injection h with h2
      subst h2
      exact ⟨Bool.eq_false_iff.mpr hg, hws⟩
  | succ fuel ih =>
    intro ln out h hws
    unfold cleanLoop at h
    split at h
    · split at h
      · cases h
      · exact ih (cleanStep ln) out h
          (fun c r hc => stripBoth_head_false pyWhitespace _ c r hc)
    · next hg =>
      injection h with h2
      subst h2
      exact ⟨Bool.eq_false_iff.mpr hg, hws⟩

theorem cleanLines_mem (ls : List (List Char)) :
    ∀ outs, cleanLines ls = some outs →
      ∀ out ∈ outs, out ≠ [] ∧
        ∃ ln ∈ ls, cleanLoop ln.length ln = some out := by
  induction ls with
  | nil =>
    intro outs h out hout
    unfold cleanLines at h
    injection h with h2
    subst h2
    exact absurd hout (List.not_mem_nil out)
  | cons ln rest ih =>
    intro outs h out hout
    unfold cleanLines at h
    cases hcl : cleanLoop ln.length ln with
    | none => rw [hcl] at h; cases h
    | some out1 =>
      rw [hcl] at h
      cases hrest : cleanLines rest with
      | none => rw [hrest] at h; cases h
      | some outs1 =>
        rw [hrest] at h
        injection h with h2
        subst h2
        by_cases he : out1 = []
        · rw [if_pos he] at hout
          obtain ⟨hne, ln2, hln2, hcl2⟩ := ih outs1 hrest out hout
          exact ⟨hne, ln2, List.mem_cons_of_mem ln hln2, hcl2⟩
        · rw [if_neg he] at hout
          rcases List.mem_cons.mp hout with h3 | h3
          · subst h3
            exact ⟨he, ln, List.mem_cons_self ln rest, hcl⟩
          · obtain ⟨hne, ln2, hln2, hcl2⟩ := ih outs1 hrest out h3
            exact ⟨hne, ln2, List.mem_cons_of_mem ln hln2, hcl2⟩

theorem mem_clean_list (text : String) (l : List String)
    (h : _clean_list_from_text text = some l) :
    ∀ s ∈ l, s.data ≠ [] ∧
      ∀ c r, s.data = c :: r →
        isMarkerStart c = false ∧ pyWhitespace c = false := by
  intro s hs
  unfold _clean_list_from_text at h
  cases hcl : cleanLines (((pySplitlines text.data).map (stripBoth pyWhitespace)).filter
      (fun ln => ln ≠ [])) with
  | none => rw [hcl] at h; cases h
  | some cleaned =>
    rw [hcl] at h
    injection h with h2
    subst h2
    simp only [List.mem_map] at hs
    obtain ⟨ln, hln, rfl⟩ := hs
    obtain ⟨hne, ln0, hln0, hloop⟩ := cleanLines_mem _ cleaned hcl ln hln
    have hmem0 := List.mem_filter.mp hln0
    obtain ⟨hln1, _⟩ := hmem0
    simp only [List.mem_map] at hln1
    obtain ⟨raw, _, rfl⟩ := hln1
    have hspec := cleanLoop_some_spec _ _ ln hloop
      (fun c r hc => stripBoth_head_false pyWhitespace raw c r hc)
    refine ⟨hne, ?_⟩
    intro c r hc
    have hc2 : ln = c :: r := hc
    refine ⟨?_, hspec.2 c r hc2⟩
    have hg := hspec.1
    rw [hc2] at hg
    simpa [loopGuard] using hg

theorem data_eq_nil_iff (s : String) : s.data = [] ↔ s = "" :=
  ⟨fun h => String.ext h, fun h => by rw [h]⟩

theorem applyOp_frame (s : InterviewSession) (op : SessionOp) :
    (applyOp s op).questions = s.questions ∧
    (applyOp s op).job_title = s.job_title := by
  cases op with
  | next =>
    simp only [applyOp]
    unfold next_question
    split <;> simp
  | reset => simp [applyOp, reset]
  | peek => exact ⟨rfl, rfl⟩
  | hasNext => exact ⟨rfl, rfl⟩
  | allQuestions => exact ⟨rfl, rfl⟩

theorem runOps_frame (s : InterviewSession) (ops : List SessionOp) :
    (runOps s ops).questions = s.questions ∧
    (runOps s ops).job_title = s.job_title := by
  induction ops generalizing s with
  | nil => exact ⟨rfl, rfl⟩
  | cons op rest ih =>
    have h := applyOp_frame s op
    have h2 := ih (applyOp s op)
    simp only [runOps, List.foldl_cons] at h2 ⊢
    exact ⟨h2.1.trans h.1, h2.2.trans h.2⟩

theorem applyOp_inv (s : InterviewSession) (op : SessionOp) (h : SessionInv s) :
    SessionInv (applyOp s op) := by
  cases op with
  | next =>
    simp only [applyOp]
    unfold next_question
    split
    · next hlt =>
      simp only [SessionInv] at *
      omega
    · exact h
  | reset => simp [applyOp, reset, SessionInv]
  | peek => exact h
  | hasNext => exact h
  | allQuestions => exact h

theorem runOps_inv (s : InterviewSession) (ops : List SessionOp)
    (h : SessionInv s) : SessionInv (runOps s ops) := by
  induction ops generalizing s with
  | nil => exact h
  | cons op rest ih =>
    simp only [runOps, List.foldl_cons] at *
    exact ih _ (applyOp_inv s op h)

theorem generate_questions_no_backend (jt : String) (hjt : jt ≠ "") (n : Int) :
    generate_questions none jt n = some (pySliceTo n FALLBACK_QUESTIONS) := by
  unfold generate_questions
  rw [if_neg hjt]

theorem mkSession_no_backend (jt : String) (hjt : jt ≠ "") (n : Int) :
    mkSession none jt n =
      some { job_title := jt
             n_questions := max 1 n
             questions := pySliceTo (max 1 n) FALLBACK_QUESTIONS
             index := 0 } := by
  unfold mkSession
  rw [generate_questions_no_backend jt hjt]

/-! ## Claim theorems -/

/-- C1: with no backend configured, for every non-empty job title and every
N with 1 ≤ N ≤ 10, `generate_questions` returns exactly the first N entries
of the fixed fallback list in their fixed order (hence deterministically),
a list of length ≤ N containing no empty strings; and the session created
with title "Data Scientist" and `n_questions = 3` has `all_questions()`
equal to the first 3 fallback entries. -/
theorem C1_fallback_first_n (jt : String) (N : Int) (hjt : jt ≠ "")
    (h1 : 1 ≤ N) (h2 : N ≤ 10) :
    generate_questions none jt N = some (FALLBACK_QUESTIONS.take N.toNat) ∧
    ((FALLBACK_QUESTIONS.take N.toNat).length : Int) ≤ N ∧
    (∀ s ∈ FALLBACK_QUESTIONS.take N.toNat, s ≠ "") ∧
    Option.map all_questions (mkSession none "Data Scientist" 3) =
      some (FALLBACK_QUESTIONS.take 3) := by
  refine ⟨?_, ?_, ?_, ?_⟩
  · rw [generate_questions_no_backend jt hjt]
    unfold pySliceTo
    rw [if_pos (by omega : (0:Int) ≤ N)]
  · have hlen : (FALLBACK_QUESTIONS.take N.toNat).length ≤ N.toNat := by
      simp [List.length_take]
    omega
  · intro s hs
    have hmem : s ∈ FALLBACK_QUESTIONS := List.take_subset _ _ hs
    have hall : ∀ x ∈ FALLBACK_QUESTIONS, x ≠ "" := by decide
    exact hall s hmem
  · decide

/-- Witness for C1 at job title "Data Scientist" and N = 3. -/
theorem C1_fallback_first_n_witness :
    generate_questions none "Data Scientist" 3 =
      some (FALLBACK_QUESTIONS.take (3:Int).toNat) ∧
    ((FALLBACK_QUESTIONS.take (3:Int).toNat).length : Int) ≤ 3 ∧
    (∀ s ∈ FALLBACK_QUESTIONS.take (3:Int).toNat, s ≠ "") ∧
    Option.map all_questions (mkSession none "Data Scientist" 3) =
      some (FALLBACK_QUESTIONS.take 3) :=
  C1_fallback_first_n "Data Scientist" 3 (by decide) (by decide) (by decide)

/-- C5: for every non-empty job title and requested count, if the backend
call raises an exception, `generate_questions` returns (rather than
propagates) a list headed by the inline error message and continued with
fallback questions filling the requested count; for N ≥ 1 the tail is
exactly the first N-1 fallback entries. -/
theorem C5_backend_error_questions (b : Backend) (jt e : String) (n : Int)
    (hjt : jt ≠ "") (hb : b (gqPrompt jt n) = Except.error e) :
    generate_questions (some b) jt n =
      some (("Error generating questions: " ++ e) ::
        pySliceTo (max 0 (n - 1)) FALLBACK_QUESTIONS) ∧
    (1 ≤ n → generate_questions (some b) jt n =
      some (("Error generating questions: " ++ e) ::
        FALLBACK_QUESTIONS.take (n - 1).toNat)) := by
  have h : generate_questions (some b) jt n =
      some (("Error generating questions: " ++ e) ::
        pySliceTo (max 0 (n - 1)) FALLBACK_QUESTIONS) := by
    unfold generate_questions
    rw [if_neg hjt]
    simp only [hb]
  refine ⟨h, fun h1 => ?_⟩
  rw [h]
  have hmax : max 0 (n - 1) = n - 1 := max_eq_right (by omega)
  unfold pySliceTo
  rw [hmax, if_pos (by omega : (0:Int) ≤ n - 1)]

/-- Witness for C5 with a backend that raises "boom", title "SE", N = 3. -/
theorem C5_backend_error_questions_witness :
    generate_questions (some (fun _ => Except.error "boom")) "SE" 3 =
      some (("Error generating questions: " ++ "boom") ::
        pySliceTo (max 0 (3 - 1)) FALLBACK_QUESTIONS) ∧
    generate_questions (some (fun _ => Except.error "boom")) "SE" 3 =
      some (("Error generating questions: " ++ "boom") ::
        FALLBACK_QUESTIONS.take ((3:Int) - 1).toNat) := by
  have h := C5_backend_error_questions (fun _ => Except.error "boom") "SE" "boom" 3
    (by decide) rfl
  exact ⟨h.1, h.2 (by omega)⟩

/-- C6: validation failures are handled locally, for every backend and
without calling it: an empty job title makes `generate_questions` return
the fixed placeholder, and an empty or whitespace-only answer makes
`get_feedback_on_answer` return the fixed no-answer message. -/
theorem C6_validation_local (m : Option Backend) (n : Int) (q a : String)
    (ha : a = "" ∨ pyStrip a = "") :
    generate_questions m "" n = some ["Please provide a job title."] ∧
    get_feedback_on_answer m q a =
      "No answer provided. Please write your response before requesting feedback." := by
  constructor
  · unfold generate_questions
    rw [if_pos rfl]
  · unfold get_feedback_on_answer
    rw [if_pos ha]

/-- Witness for C6 with no backend, N = 5, and a whitespace-only answer. -/
theorem C6_validation_local_witness :
    generate_questions none "" 5 = some ["Please provide a job title."] ∧
    get_feedback_on_answer none "Why this role?" "   " =
      "No answer provided. Please write your response before requesting feedback." :=
  C6_validation_local none 5 "Why this role?" "   " (Or.inr (by decide))

set_option maxRecDepth 4096 in
/-- Counterexample to C2 as stated: `ans30` has raw length 30 (at the
threshold), yet the heuristic returns the "40/100" block, because the
source measures `len(answer.strip())` (29 here), not the raw answer
length. -/
theorem C2_counterexample :
    ans30.length = 30 ∧ ans30 ≠ "" ∧ pyStrip ans30 ≠ "" ∧
    (pyStrip ans30).length = 29 ∧
    get_feedback_on_answer none "Any question" ans30 =
      String.mk (joinNL (feedbackShort.map String.data)) ∧
    get_feedback_on_answer none "Any question" ans30 ≠
      String.mk (joinNL (feedbackLong.map String.data)) := by
  decide

/-- C2 (amended): with no backend, for every question and every non-empty,
non-whitespace-only answer, the heuristic keys on the length of the
stripped answer: below 30 it returns the fixed "40/100" block, at or above
30 the fixed "75/100" block; both blocks are exactly 5 lines, the i-th
prefixed with its 1-based position. -/
theorem C2_heuristic_feedback (q a : String) (h1 : a ≠ "") (h2 : pyStrip a ≠ "") :
    ((pyStrip a).length < 30 →
      get_feedback_on_answer none q a =
        String.mk (joinNL (feedbackShort.map String.data))) ∧
    (30 ≤ (pyStrip a).length →
      get_feedback_on_answer none q a =
        String.mk (joinNL (feedbackLong.map String.data))) ∧
    feedbackShort.length = 5 ∧ feedbackLong.length = 5 ∧
    pySplitlines (joinNL (feedbackShort.map String.data)) =
      feedbackShort.map String.data ∧
    pySplitlines (joinNL (feedbackLong.map String.data)) =
      feedbackLong.map String.data ∧
    (∀ i, i < 5 →
      (feedbackShort.getD i "").data.take 2 = (toString (i + 1) ++ ")").data ∧
      (feedbackLong.getD i "").data.take 2 = (toString (i + 1) ++ ")").data) := by
  have hcond : ¬(a = "" ∨ pyStrip a = "") := fun h => h.elim h1 h2
  have hif : get_feedback_on_answer none q a =
      if (pyStrip a).length < 30 then
        String.mk (joinNL (feedbackShort.map String.data))
      else String.mk (joinNL (feedbackLong.map String.data)) := by
    unfold get_feedback_on_answer
    rw [if_neg hcond]
  refine ⟨fun hlt => by rw [hif, if_pos hlt],
          fun hge => by rw [hif, if_neg (by omega)],
          by decide, by decide, by decide, by decide, by decide⟩

/-- Witness for C2 (amended) at question "Tell me about yourself." and the
short answer "hi". -/
theorem C2_heuristic_feedback_witness :
    get_feedback_on_answer none "Tell me about yourself." "hi" =
      String.mk (joinNL (feedbackShort.map String.data)) :=
  (C2_heuristic_feedback "Tell me about yourself." "hi" (by decide) (by decide)).1
    (by decide)

/-- Counterexample to C4 as stated: on input ". hello" the parser returns
the line unchanged, so a returned string begins with '.', contradicting
the claim that no returned string begins with a digit, '.', ')', '-',
'*', or whitespace; and on input "²x" — a line headed by a non-ASCII
digit, which the loop guard accepts but the `lstrip` set cannot remove —
the source's loop never terminates, so the parser returns nothing at all
(`none` in the model). -/
theorem C4_counterexample :
    _clean_list_from_text ". hello" = some [". hello"] ∧
    (". hello").data.take 1 = ['.'] ∧
    _clean_list_from_text "²x" = none := by
  decide

/-- C4 (amended): whenever the parser terminates (it does not on a line
headed by a character that Python classifies as a digit but that the
marker-stripping `lstrip` cannot remove, such as '²'), every string it
returns is non-empty and begins with no digit, '-', '*', or whitespace
character (a returned string may still begin with '.' or ')', since the
stripping loop only runs while the first character is a digit, '-' or
'*'). -/
theorem C4_clean_list_clean (text : String) (l : List String)
    (h : _clean_list_from_text text = some l) :
    ∀ s ∈ l, s ≠ "" ∧
      ∀ c r, s.data = c :: r →
        isMarkerStart c = false ∧ pyWhitespace c = false := by
  intro s hs
  have h2 := mem_clean_list text l h s hs
  exact ⟨fun hc => h2.1 ((data_eq_nil_iff s).mpr hc), h2.2⟩

/-- Witness for C4 (amended) at input "1. What is X?" and returned string
"What is X?". -/
theorem C4_clean_list_clean_witness :
    "What is X?" ≠ "" ∧ isMarkerStart 'W' = false ∧ pyWhitespace 'W' = false :=
  ⟨(C4_clean_list_clean "1. What is X?" ["What is X?"] (by decide)
      "What is X?" (by decide)).1,
   (C4_clean_list_clean "1. What is X?" ["What is X?"] (by decide)
      "What is X?" (by decide)).2 'W' ("hat is X?").data (by decide)⟩

theorem next_question_title (t a : String) (b : Int) (qs : List String) (i : Nat) :
    next_question ⟨t, b, qs, i⟩ =
      ((next_question ⟨a, b, qs, i⟩).1,
        { (next_question ⟨a, b, qs, i⟩).2 with job_title := t }) := by
  by_cases h : i < qs.length <;> simp [next_question, h]

theorem sessionStates_title (t a : String) (b : Int) (qs : List String)
    (i : Nat) (k : Nat) :
    sessionStates ⟨t, b, qs, i⟩ k =
      { sessionStates ⟨a, b, qs, i⟩ k with job_title := t } := by
  induction k with
  | zero => rfl
  | succ k ih =>
    simp only [sessionStates]
    rw [ih]
    rcases hS : sessionStates ⟨a, b, qs, i⟩ k with ⟨a2, b2, qs2, i2⟩
    show (next_question (⟨t, b2, qs2, i2⟩ : InterviewSession)).2 =
      { (next_question ⟨a2, b2, qs2, i2⟩).2 with job_title := t }
    rw [next_question_title t a2 b2 qs2 i2]

theorem sessionOut_title (t a : String) (b : Int) (qs : List String)
    (i : Nat) (k : Nat) :
    sessionOut ⟨t, b, qs, i⟩ k = sessionOut ⟨a, b, qs, i⟩ k := by
  unfold sessionOut
  rw [sessionStates_title t a b qs i k]
  rcases hS : sessionStates ⟨a, b, qs, i⟩ k with ⟨a2, b2, qs2, i2⟩
  show (next_question (⟨t, b2, qs2, i2⟩ : InterviewSession)).1 =
    (next_question ⟨a2, b2, qs2, i2⟩).1
  rw [next_question_title t a2 b2 qs2 i2]

theorem has_next_update (s : InterviewSession) (t : String) :
    has_next { s with job_title := t } = has_next s := rfl

theorem index_update (s : InterviewSession) (t : String) :
    ({ s with job_title := t }).index = s.index := rfl

/-- C3: for a session created with a non-empty title, `n_questions = 5`, no
backend (construction returns): the first five `next()` calls return the
five questions as distinct, sequentially labeled strings
"Question 1: ..." to "Question 5: ...", the sixth call returns `none`
without moving the cursor, and `has_next()` is true before each of the
first five calls and false from the fifth call on. -/
theorem C3_session_walkthrough (jt : String) (hjt : jt ≠ "") :
    ∃ s0, mkSession none jt 5 = some s0 ∧
      sessionOut s0 0 = some "Question 1: Why should we hire you?" ∧
      sessionOut s0 1 = some "Question 2: Tell me about yourself." ∧
      sessionOut s0 2 = some "Question 3: What are your strengths?" ∧
      sessionOut s0 3 = some "Question 4: What are your weaknesses?" ∧
      sessionOut s0 4 = some "Question 5: Where do you see yourself in 5 years?" ∧
      sessionOut s0 5 = none ∧
      (sessionStates s0 6).index = (sessionStates s0 5).index ∧
      [sessionOut s0 0, sessionOut s0 1, sessionOut s0 2, sessionOut s0 3,
        sessionOut s0 4].Nodup ∧
      (∀ k, k < 5 → has_next (sessionStates s0 k) = true) ∧
      has_next (sessionStates s0 5) = false := by
  refine ⟨⟨jt, max 1 5, pySliceTo (max 1 5) FALLBACK_QUESTIONS, 0⟩,
    mkSession_no_backend jt hjt 5, ?_⟩
  simp only [sessionOut_title jt "", sessionStates_title jt "",
    has_next_update, index_update]
  decide

/-- Witness for C3 at job title "Backend Engineer". -/
theorem C3_session_walkthrough_witness :
    ∃ s0, mkSession none "Backend Engineer" 5 = some s0 ∧
      sessionOut s0 0 = some "Question 1: Why should we hire you?" ∧
      sessionOut s0 1 = some "Question 2: Tell me about yourself." ∧
      sessionOut s0 2 = some "Question 3: What are your strengths?" ∧
      sessionOut s0 3 = some "Question 4: What are your weaknesses?" ∧
      sessionOut s0 4 = some "Question 5: Where do you see yourself in 5 years?" ∧
      sessionOut s0 5 = none ∧
      (sessionStates s0 6).index = (sessionStates s0 5).index ∧
      [sessionOut s0 0, sessionOut s0 1, sessionOut s0 2, sessionOut s0 3,
        sessionOut s0 4].Nodup ∧
      (∀ k, k < 5 → has_next (sessionStates s0 k) = true) ∧
      has_next (sessionStates s0 5) = false :=
  C3_session_walkthrough "Backend Engineer" (by decide)

/-- C7: the claim — no engine call is fatal, every backend outcome yields
a usable textual result — is the code's own documented intent ("falls
back to safe dummy questions/feedback so the UI does not crash"), but
the code breaks it: on a successful backend response containing a line
headed by a non-ASCII digit, the cleaning loop's guard accepts a
character its `lstrip` set cannot remove and `generate_questions` (and a
session construction that calls it) never returns — `none` in the model.
The raising and unconfigured outcomes still return inline text, as the
remaining conjuncts show. -/
theorem C7_engine_hang_on_unicode_digit :
    generate_questions (some (fun _ => Except.ok (some "1. Fine?\n²x")))
      "SE" 3 = none ∧
    mkSession (some (fun _ => Except.ok (some "1. Fine?\n²x"))) "SE" 3 =
      none ∧
    get_feedback_on_answer (some (fun _ => Except.error "down")) "Q"
      "fine answer" = "Error generating feedback: " ++ "down" ∧
    generate_questions (some (fun _ => Except.error "down")) "SE" 3 =
      some (("Error generating questions: " ++ "down") ::
        pySliceTo (max 0 (3 - 1)) FALLBACK_QUESTIONS) := by
  decide

theorem mkSession_some_index (m : Option Backend) (jt : String) (n : Int)
    (s0 : InterviewSession) (h : mkSession m jt n = some s0) :
    s0.index = 0 := by
  unfold mkSession at h
  cases hgq : generate_questions m jt (max 1 n) with
  | none => rw [hgq] at h; cases h
  | some qs =>
    rw [hgq] at h
    injection h with h2
    rw [← h2]

/-- C8: the cursor invariant 0 ≤ index ≤ len(questions) holds whenever
construction returns (the cursor then starts at 0) and is preserved by
every session operation; once exhausted, `next()` returns `none` without
moving the cursor. -/
theorem C8_cursor_invariant (m : Option Backend) (jt : String) (n : Int)
    (s : InterviewSession) (op : SessionOp) (hs : SessionInv s) :
    (∀ s0, mkSession m jt n = some s0 → SessionInv s0 ∧ s0.index = 0) ∧
    SessionInv (applyOp s op) ∧
    (s.questions.length ≤ s.index → next_question s = (none, s)) := by
  refine ⟨fun s0 h0 => ?_, applyOp_inv s op hs, fun h => ?_⟩
  · have hi := mkSession_some_index m jt n s0 h0
    refine ⟨?_, hi⟩
    show s0.index ≤ s0.questions.length
    rw [hi]
    exact Nat.zero_le _
  · unfold next_question
    rw [if_neg (by omega)]

/-- Witness for C8 with an exhausted session (empty question list, cursor
0). -/
theorem C8_cursor_invariant_witness :
    (∀ s0, mkSession none "QA" 2 = some s0 → SessionInv s0 ∧ s0.index = 0) ∧
    SessionInv (applyOp (⟨"QA", 2, [], 0⟩ : InterviewSession) SessionOp.next) ∧
    ((⟨"QA", 2, [], 0⟩ : InterviewSession).questions.length ≤
        (⟨"QA", 2, [], 0⟩ : InterviewSession).index →
      next_question ⟨"QA", 2, [], 0⟩ = (none, ⟨"QA", 2, [], 0⟩)) :=
  C8_cursor_invariant none "QA" 2 ⟨"QA", 2, [], 0⟩ SessionOp.next
    (Nat.le_refl 0)

/-- C9: `reset()` sets the cursor back to 0 and changes nothing else: for
every session whose construction returned, in every reachable state,
`all_questions()`, the job title and the question list generated at
construction are unchanged, and `next()` right after `reset()` returns
the same first question as the first `next()` after construction. -/
theorem C9_reset_frame (m : Option Backend) (jt : String) (n : Int)
    (ops : List SessionOp) (s0 : InterviewSession)
    (h : mkSession m jt n = some s0) :
    all_questions (reset (runOps s0 ops)) = all_questions (runOps s0 ops) ∧
    (reset (runOps s0 ops)).job_title = (runOps s0 ops).job_title ∧
    (reset (runOps s0 ops)).questions = s0.questions ∧
    (reset (runOps s0 ops)).index = 0 ∧
    (next_question (reset (runOps s0 ops))).1 = (next_question s0).1 := by
  have hq := (runOps_frame s0 ops).1
  have hidx := mkSession_some_index m jt n s0 h
  refine ⟨rfl, rfl, hq, rfl, ?_⟩
  rcases hX : runOps s0 ops with ⟨a2, b2, qs2, i2⟩
  rcases hM : s0 with ⟨a3, b3, qs3, i3⟩
  rw [hX, hM] at hq
  rw [hM] at hidx
  have hq2 : qs2 = qs3 := hq
  have hi3 : i3 = 0 := hidx
  show (next_question (⟨a2, b2, qs2, 0⟩ : InterviewSession)).1 =
    (next_question ⟨a3, b3, qs3, i3⟩).1
  rw [hq2, hi3]
  unfold next_question
  by_cases h2 : 0 < qs3.length <;> simp [h2]

/-- Witness for C9 at the concrete "QA" session and one `next()` call. -/
theorem C9_reset_frame_witness :
    all_questions (reset (runOps qaSession [SessionOp.next])) =
      all_questions (runOps qaSession [SessionOp.next]) ∧
    (reset (runOps qaSession [SessionOp.next])).job_title =
      (runOps qaSession [SessionOp.next]).job_title ∧
    (reset (runOps qaSession [SessionOp.next])).questions =
      qaSession.questions ∧
    (reset (runOps qaSession [SessionOp.next])).index = 0 ∧
    (next_question (reset (runOps qaSession [SessionOp.next]))).1 =
      (next_question qaSession).1 :=
  C9_reset_frame none "QA" 2 [SessionOp.next] qaSession (by decide)

/-- Counterexample to C10 as stated: construction of the "Data Scientist"
session returns `dsSession`, and after `next()` then `reset()`,
`peek_current()` returns `none` even though `next()` has been called on
the session. -/
theorem C10_counterexample :
    mkSession none "Data Scientist" 3 = some dsSession ∧
    peek_current (runOps dsSession [SessionOp.next, SessionOp.reset]) = none ∧
    SessionOp.next ∈ [SessionOp.next, SessionOp.reset] := by
  decide

/-- C10 (amended): for every reachable session state, `peek_current`
returns `none` exactly when the cursor is 0 (no `next()` since
construction or the last `reset()`); when the cursor is non-zero it
returns exactly what the most recent cursor-advancing `next()` returned,
same 1-based label included, and peeking does not change the state. -/
theorem C10_peek_current (m : Option Backend) (jt : String) (n : Int)
    (ops : List SessionOp) (s0 : InterviewSession)
    (h : mkSession m jt n = some s0) :
    (peek_current (runOps s0 ops) = none ↔ (runOps s0 ops).index = 0) ∧
    ((runOps s0 ops).index ≠ 0 →
      peek_current (runOps s0 ops) =
        (next_question { runOps s0 ops with
          index := (runOps s0 ops).index - 1 }).1) ∧
    applyOp (runOps s0 ops) SessionOp.peek = runOps s0 ops := by
  have hinv : SessionInv (runOps s0 ops) := by
    apply runOps_inv
    show s0.index ≤ s0.questions.length
    rw [mkSession_some_index m jt n s0 h]
    exact Nat.zero_le _
  rcases hX : runOps s0 ops with ⟨a2, b2, qs2, i2⟩
  rw [hX] at hinv
  have hi2 : i2 ≤ qs2.length := hinv
  refine ⟨?_, ?_, rfl⟩
  · by_cases h : i2 = 0 <;> simp [peek_current, h]
  · intro hne
    have hne2 : i2 ≠ 0 := hne
    have hlt : i2 - 1 < qs2.length := by omega
    have h1 : i2 - 1 + 1 = i2 := by omega
    simp [peek_current, next_question, hne2, hlt, h1]

/-- Witness for C10 (amended): the concrete "QA" session after one
`next()` call. -/
theorem C10_peek_current_witness :
    peek_current (runOps qaSession [SessionOp.next]) =
      (next_question { runOps qaSession [SessionOp.next] with
        index := (runOps qaSession [SessionOp.next]).index - 1 }).1 :=
  (C10_peek_current none "QA" 2 [SessionOp.next] qaSession (by decide)).2.1
    (by decide)
